import Mathlib

/-!
Shallow embedding of `pkg/proxy/kubernetes.go` of the
`k8s-service-proxy` repository (a Kubernetes service gateway that
demuxes HTTP requests by longest path-prefix learnt from service
annotations), together with theorems settling the frozen claims
about it.

Modelling conventions:
* Go maps are modelled as association lists (`List (String × α)`)
  with `lookupA`/`insertA`/`eraseA`; lookups find the first binding.
* `http.Handler` values are opaque to the routing logic; each call to
  `newProxyHandler` in Go allocates a fresh `ReverseProxy` object, so
  handlers are modelled as allocation identifiers (`Nat`) drawn from a
  counter carried in the proxy state.
* Go string slicing/prefix tests are byte-based; all paths involved are
  ASCII, so Lean `String` character operations coincide with them.
* Fallible operations (`strconv.Atoi`, `strconv.ParseUint`, Go slice
  expressions that can panic) are modelled with `Option`.
-/

/-! ## Go string primitives -/

/-- Decimal digit string to `Nat`; `none` unless the string is nonempty
and all digits.  This is the unbounded core shared by the `strconv`
models below. -/
def parseDecimal (s : String) : Option Nat :=
  if s.data ≠ [] ∧ s.data.all Char.isDigit then
    some (s.data.foldl (fun acc c => acc * 10 + (c.toNat - 48)) 0)
  else none

/-- Model of Go `strconv.ParseUint(s, 10, bitSize)`: digits only (no
sign), value must fit in `bitSize` bits. -/
def goParseUint (s : String) (bitSize : Nat) : Option Nat :=
  match parseDecimal s with
  | none => none
  | some v => if v < 2 ^ bitSize then some v else none

/-- Model of Go `strconv.Atoi`: optional sign, then digits; the value
must fit in a 64-bit `int`. -/
def goAtoi (s : String) : Option Int :=
  match s.data with
  | [] => none
  | '+' :: rest =>
    match parseDecimal (String.mk rest) with
    | some v => if v < 2 ^ 63 then some (Int.ofNat v) else none
    | none => none
  | '-' :: rest =>
    match parseDecimal (String.mk rest) with
    | some v => if v ≤ 2 ^ 63 then some (-(Int.ofNat v)) else none
    | none => none
  | _ =>
    match parseDecimal s with
    | some v => if v < 2 ^ 63 then some (Int.ofNat v) else none
    | none => none

/-- Go `int32(p)` conversion (two's-complement wraparound). -/
def goInt32 (p : Int) : Int :=
  (p + 2 ^ 31).emod (2 ^ 32) - 2 ^ 31

/-- Model of Go `strings.HasPrefix(s, p)` (argument order follows the
Lean convention, the candidate p first). -/
def goHasPrefix (p s : String) : Bool :=
  p.data.isPrefixOf s.data

/-- First split of a character list at a separator:
`splitFirst cs sep = some (before, after)` when `sep` occurs. -/
def splitFirst (cs : List Char) (sep : Char) : Option (List Char × List Char) :=
  match cs with
  | [] => none
  | c :: rest =>
    if c = sep then some ([], rest)
    else match splitFirst rest sep with
      | some (pre, post) => some (c :: pre, post)
      | none => none

/-- Model of Go `strings.SplitN(s, sep, n)` for `n ≥ 1` (character
version): at most `n` pieces, the last piece keeps any remaining
separators. -/
def splitNChars (cs : List Char) (sep : Char) : Nat → List (List Char)
  | 0 => []
  | 1 => [cs]
  | n + 2 =>
    match splitFirst cs sep with
    | some (pre, post) => pre :: splitNChars post sep (n + 1)
    | none => [cs]

/-- Model of Go `strings.SplitN(s, sep, n)` on `String`. -/
def goSplitN (s : String) (sep : Char) (n : Nat) : List String :=
  (splitNChars s.data sep n).map String.mk

/-! ## Constants (source lines 24–86) -/

/-- SvcProxyHTTPPath is the http request path served by the proxy itself. -/
def SvcProxyHTTPPath : String := "/k8s-svc-proxy/"

def SvcProxyAnnotationPath : String := "k8s-svc-proxy.local/path"

def SvcProxyAnnotationPort : String := "k8s-svc-proxy.local/port"

def SvcProxyAnnotationMap : String := "k8s-svc-proxy.local/map"

def SvcProxyAnnotationDescription : String := "k8s-svc-proxy.local/description"

def SvcProxyAnnotationEndpoint : String := "k8s-svc-proxy.local/endpoint-port"

def serviceDiscoveryPage : String := SvcProxyHTTPPath ++ "services"

def endpointDiscoveryPage : String := SvcProxyHTTPPath ++ "endpoints"

def endpointPath : String := "/endpoint/"

/-! ## Kubernetes object model (the fields the proxy consumes) -/

/-- A `v1.ServicePort` reduced to the field the proxy reads. -/
structure V1ServicePort where
  Port : Int
  deriving DecidableEq, Repr

/-- A `v1.Service` reduced to the fields the proxy reads: object
namespace and name, annotations, and the declared ports. -/
structure V1Service where
  Namespace : String
  Name : String
  Annotations : List (String × String)
  Ports : List V1ServicePort
  deriving DecidableEq, Repr

/-- A `v1.EndpointAddress`: IP plus the optional target reference
(kind, name). -/
structure V1EndpointAddress where
  IP : String
  TargetRefKind : Option String
  TargetRefName : String
  deriving DecidableEq, Repr

/-- A `v1.EndpointSubset`: ready and not-ready address lists. -/
structure V1EndpointSubset where
  Addresses : List V1EndpointAddress
  NotReadyAddresses : List V1EndpointAddress
  deriving DecidableEq, Repr

/-- A `v1.Endpoints` object. -/
structure V1Endpoints where
  Namespace : String
  Name : String
  Subsets : List V1EndpointSubset
  deriving DecidableEq, Repr

/-! ## Proxy data structures (source lines 27–59) -/

/-- `svcEndpoint` (source lines 27–33).  `handler` is the allocation id
of the installed proxy handler; `none` before installation.  Go's
`reflect.DeepEqual` on `*svcEndpoint` compares all fields, the
unexported `handler` included, which the derived equality mirrors. -/
structure svcEndpoint where
  Path : String
  Port : Int
  Map : String
  Description : String
  handler : Option Nat
  deriving DecidableEq, Repr

/-- `podEndpoint` (source lines 35–39).  The lazily-built cached
`handler` field only memoises the forwarding handler and never affects
the routing decision, so it is omitted from the model. -/
structure podEndpoint where
  PodName : String
  IP : String
  deriving DecidableEq, Repr

/-- `endpointData` (source lines 47–50). -/
structure endpointData where
  Port : Int
  endpoints : List podEndpoint
  deriving DecidableEq, Repr

/-! ## Association-list operations standing in for Go maps -/

def lookupA {α : Type} : List (String × α) → String → Option α
  | [], _ => none
  | (k, v) :: t, key => if k = key then some v else lookupA t key

def insertA {α : Type} : List (String × α) → String → α → List (String × α)
  | [], key, v => [(key, v)]
  | (k, w) :: t, key, v =>
    if k = key then (key, v) :: t else (k, w) :: insertA t key v

def eraseA {α : Type} (m : List (String × α)) (key : String) : List (String × α) :=
  m.filter (fun kv => kv.1 ≠ key)

/-- `k8sServiceProxy` (source lines 52–59): the three maps guarded by
the mutex, plus the allocation counter for proxy handlers.  The
`defaultHandler` needs no representation: dispatch outcomes name it
symbolically. -/
structure k8sServiceProxy where
  pathHandlers : List (String × List Nat)
  services : List (String × svcEndpoint)
  endpoints : List (String × endpointData)
  nextHandler : Nat
  deriving DecidableEq, Repr

/-- The freshly constructed proxy state (`NewKubernetesServiceProxy`,
source lines 566–572): all three maps empty. -/
def initialProxy : k8sServiceProxy :=
  { pathHandlers := [], services := [], endpoints := [], nextHandler := 0 }

/-! ## Port and route computation (source lines 243–296) -/

/-- `getServicePort` (source lines 243–258).  Note that a present but
unparsable port annotation returns `(-1, false)` immediately: the
`else if` on the single declared port is not reached. -/
def getServicePort (svc : V1Service) : Int × Bool :=
  match lookupA svc.Annotations SvcProxyAnnotationPort with
  | some port =>
    match goAtoi port with
    | none => (-1, false)
    | some p => (goInt32 p, true)
  | none =>
    if svc.Ports.length = 1 then
      let svcPort := svc.Ports.headD ⟨0⟩
      if svcPort.Port ≠ 80 then (svcPort.Port, true) else (-1, false)
    else (-1, false)

/-- `makeSvcEndpoint` (source lines 260–282). -/
def makeSvcEndpoint (svc : V1Service) : Option svcEndpoint :=
  match lookupA svc.Annotations SvcProxyAnnotationPath with
  | none => none
  | some path =>
    if goHasPrefix SvcProxyHTTPPath path then none
    else
      let portPair := getServicePort svc
      some { Path := path
             Port := if portPair.2 then portPair.1 else -1
             Map := (lookupA svc.Annotations SvcProxyAnnotationMap).getD ""
             Description := (lookupA svc.Annotations SvcProxyAnnotationDescription).getD ""
             handler := none }

/-- `requestMapper` (source lines 88–96), reduced to the URL-path
rewrite (the scheme/host rewrite and User-Agent handling do not bear on
any claim).  The Go expression `req.URL.Path[len(endpoint.Path):]`
panics when the route path is longer than the request path; the panic
is modelled as `none`. -/
def requestMapper (endpoint : svcEndpoint) (reqPath : String) : Option String :=
  if endpoint.Path.length ≤ reqPath.length then
    some (endpoint.Map ++ reqPath.drop endpoint.Path.length)
  else none

/-! ## Registry mutation (source lines 298–478) -/

/-- `handlerListRemove` (source lines 298–307): swap-remove of the
first occurrence of `element` (replace it by the last entry, truncate);
unchanged when absent.  The element compared against is the stored
handler reference of a route (`Option Nat` in the model). -/
def handlerListRemove (list : List Nat) (element : Option Nat) : List Nat :=
  match list.findIdx? (fun h => some h = element) with
  | none => list
  | some i => (list.set i (list.getLastD 0)).dropLast

/-- Handler allocation: each Go call of `newProxyHandler`
(source lines 98–109) builds a fresh `ReverseProxy`, modelled as
drawing the next allocation id. -/
def newProxyHandler (k : k8sServiceProxy) : Nat × k8sServiceProxy :=
  (k.nextHandler, { k with nextHandler := k.nextHandler + 1 })

/-- The tail of `serviceAdd` (source lines 330–336): build the handler,
append it under the route's path and record the route. -/
def serviceInstall (k : k8sServiceProxy) (svcID : String) (endpoint : svcEndpoint) :
    k8sServiceProxy :=
  let hk := newProxyHandler k
  let ep := { endpoint with handler := some hk.1 }
  { hk.2 with
    pathHandlers :=
      insertA hk.2.pathHandlers ep.Path
        (((lookupA hk.2.pathHandlers ep.Path).getD []) ++ [hk.1])
    services := insertA hk.2.services svcID ep }

/-- `serviceAdd` (source lines 309–337).  On a duplicate serviceID the
code compares the freshly computed route (whose `handler` is still nil)
against the stored one with `reflect.DeepEqual` and, when different,
executes `delete(k.pathHandlers, endpoint.Path)` — dropping the whole
handler list registered under the NEW route's path. -/
def serviceAdd (k : k8sServiceProxy) (svc : V1Service) : k8sServiceProxy :=
  match makeSvcEndpoint svc with
  | none => k
  | some endpoint =>
    let svcID := svc.Namespace ++ "/" ++ svc.Name
    match lookupA k.services svcID with
    | some prev =>
      if endpoint = prev then k
      else
        serviceInstall
          { k with pathHandlers := eraseA k.pathHandlers endpoint.Path }
          svcID endpoint
    | none => serviceInstall k svcID endpoint

/-- `serviceDelete` (source lines 339–351). -/
def serviceDelete (k : k8sServiceProxy) (svc : V1Service) : k8sServiceProxy :=
  let svcID := svc.Namespace ++ "/" ++ svc.Name
  match lookupA k.services svcID with
  | none => k
  | some endpoint =>
    let list :=
      handlerListRemove ((lookupA k.pathHandlers endpoint.Path).getD []) endpoint.handler
    let m := insertA k.pathHandlers endpoint.Path list
    { k with
      services := eraseA k.services svcID
      pathHandlers :=
        if ((lookupA m endpoint.Path).getD []).isEmpty then eraseA m endpoint.Path else m }

/-- `serviceChange` (source lines 353–379).  Write order matters and is
kept: remove the previous handler under the previous path, append the
new handler under the new path, and only then drop the previous path's
entry if its list became empty. -/
def serviceChange (k : k8sServiceProxy) (svc : V1Service) : k8sServiceProxy :=
  let svcID := svc.Namespace ++ "/" ++ svc.Name
  match lookupA k.services svcID, makeSvcEndpoint svc with
  | some prev, some endpoint =>
    if prev = endpoint then k
    else
      let hk := newProxyHandler k
      let ep := { endpoint with handler := some hk.1 }
      let m1 :=
        insertA hk.2.pathHandlers prev.Path
          (handlerListRemove ((lookupA hk.2.pathHandlers prev.Path).getD []) prev.handler)
      let m2 := insertA m1 ep.Path (((lookupA m1 ep.Path).getD []) ++ [hk.1])
      let m3 :=
        if ((lookupA m2 prev.Path).getD []).isEmpty then eraseA m2 prev.Path else m2
      { hk.2 with pathHandlers := m3, services := insertA hk.2.services svcID ep }
  | none, some _ => serviceAdd k svc
  | some _, none => serviceDelete k svc
  | none, none => k

/-- `getEndpointPort` (source lines 381–391): `ParseUint(..., 10, 32)`
then the explicit `> 65535` guard. -/
def getEndpointPort (svc : V1Service) : Int :=
  match lookupA svc.Annotations SvcProxyAnnotationEndpoint with
  | none => -1
  | some endpointPort =>
    match goParseUint endpointPort 32 with
    | none => -1
    | some v => if v > 65535 then -1 else (v : Int)

/-- `setEndpointPort` (source lines 393–404). -/
def setEndpointPort (k : k8sServiceProxy) (svc : V1Service) (port : Int) :
    k8sServiceProxy :=
  let svcID := svc.Namespace ++ "/" ++ svc.Name
  match lookupA k.endpoints svcID with
  | some data => { k with endpoints := insertA k.endpoints svcID { data with Port := port } }
  | none => { k with endpoints := insertA k.endpoints svcID { Port := port, endpoints := [] } }

/-- `addEndpointPort` (source lines 406–412). -/
def addEndpointPort (k : k8sServiceProxy) (svc : V1Service) : k8sServiceProxy :=
  let port := getEndpointPort svc
  if port ≤ 0 then k else setEndpointPort k svc port

/-- `deleteEndpointPort` (source lines 423–431): zeroes the port of an
existing entry, never inserts. -/
def deleteEndpointPort (k : k8sServiceProxy) (svc : V1Service) : k8sServiceProxy :=
  let svcID := svc.Namespace ++ "/" ++ svc.Name
  match lookupA k.endpoints svcID with
  | some data => { k with endpoints := insertA k.endpoints svcID { data with Port := 0 } }
  | none => k

/-- `updateEndpointPort` (source lines 414–421). -/
def updateEndpointPort (k : k8sServiceProxy) (svc : V1Service) : k8sServiceProxy :=
  let port := getEndpointPort svc
  if port > 0 then setEndpointPort k svc port else deleteEndpointPort k svc

/-- `makeEndpointSubList` (source lines 433–446): the pod name is taken
from the target reference only when its kind is "Pod". -/
def makeEndpointSubList (addresses : List V1EndpointAddress) : List podEndpoint :=
  addresses.map fun e =>
    { IP := e.IP
      PodName := if e.TargetRefKind = some "Pod" then e.TargetRefName else "" }

/-- Comparison used by `podEndpointSorter` (source lines 41–45). -/
def podLe (a b : podEndpoint) : Prop := a.PodName.data ≤ b.PodName.data

instance : DecidableRel podLe := fun a b =>
  inferInstanceAs (Decidable (a.PodName.data ≤ b.PodName.data))

instance : IsTotal podEndpoint podLe := ⟨fun a b => le_total a.PodName.data b.PodName.data⟩

instance : IsTrans podEndpoint podLe := ⟨fun _ _ _ h h' => le_trans h h'⟩

/-- The gathering loop of `makeEndpointList` (source lines 449–453),
before sorting: ready then not-ready addresses of each subset, in
subset order. -/
def gatherEndpoints (endpoint : V1Endpoints) : List podEndpoint :=
  endpoint.Subsets.foldr
    (fun subset acc =>
      makeEndpointSubList subset.Addresses ++ makeEndpointSubList subset.NotReadyAddresses ++ acc)
    []

/-- `makeEndpointList` (source lines 448–456).  Go's `sort.Sort` is an
unspecified (unstable) comparison sort; any sorted permutation is a
faithful model, realised here with insertion sort. -/
def makeEndpointList (endpoint : V1Endpoints) : List podEndpoint :=
  (gatherEndpoints endpoint).insertionSort podLe

/-- `setEndpointList` (source lines 458–469). -/
def setEndpointList (k : k8sServiceProxy) (endpointObj : V1Endpoints)
    (endpointList : List podEndpoint) : k8sServiceProxy :=
  let svcID := endpointObj.Namespace ++ "/" ++ endpointObj.Name
  match lookupA k.endpoints svcID with
  | some data =>
    { k with endpoints := insertA k.endpoints svcID { data with endpoints := endpointList } }
  | none =>
    { k with endpoints := insertA k.endpoints svcID { Port := 0, endpoints := endpointList } }

/-- `endpointUpdate` (source lines 471–474). -/
def endpointUpdate (k : k8sServiceProxy) (endpoint : V1Endpoints) : k8sServiceProxy :=
  setEndpointList k endpoint (makeEndpointList endpoint)

/-- `endpointDelete` (source lines 476–478): replaces the list with
nil. -/
def endpointDelete (k : k8sServiceProxy) (endpoint : V1Endpoints) : k8sServiceProxy :=
  setEndpointList k endpoint []

/-! ## The watch event loop (source lines 480–511) -/

/-- One decoded watch event, either stream. -/
inductive WatchEvent where
  | svcAdded (svc : V1Service)
  | svcDeleted (svc : V1Service)
  | svcModified (svc : V1Service)
  | epAdded (ep : V1Endpoints)
  | epDeleted (ep : V1Endpoints)
  | epModified (ep : V1Endpoints)
  deriving DecidableEq, Repr

/-- `runOnce` (source lines 480–511), restricted to the event handling
(channel mechanics are outside the model). -/
def runOnce (k : k8sServiceProxy) (ev : WatchEvent) : k8sServiceProxy :=
  match ev with
  | .svcAdded svc => addEndpointPort (serviceAdd k svc) svc
  | .svcDeleted svc => deleteEndpointPort (serviceDelete k svc) svc
  | .svcModified svc => updateEndpointPort (serviceChange k svc) svc
  | .epAdded ep => endpointUpdate k ep
  | .epModified ep => endpointUpdate k ep
  | .epDeleted ep => endpointDelete k ep

/-- Folding a whole event sequence through `runOnce`. -/
def applyEvents (evs : List WatchEvent) (k : k8sServiceProxy) : k8sServiceProxy :=
  evs.foldl runOnce k

/-! ## Dispatch (source lines 128–202) -/

/-- `getEndpointWithHandler` (source lines 130–149), without the
handler memoisation (which only caches the forwarding handler on the
returned entry and does not change which entry is selected).  `none`
models the nil return that `serveEndpoint` turns into a 404. -/
def getEndpointWithHandler (k : k8sServiceProxy) (key : String) (id : Nat) :
    Option podEndpoint :=
  match lookupA k.endpoints key with
  | none => none
  | some data =>
    if data.Port ≤ 0 then none
    else if data.endpoints.length ≤ id then none
    else data.endpoints.get? id

/-- `serveEndpoint` (source lines 151–171): split the request path into
at most five segments, take `namespace/service` as the key and the
fourth segment as the pod index.  `none` models the 404 responses. -/
def serveEndpoint (k : k8sServiceProxy) (path : String) : Option podEndpoint :=
  let parts := goSplitN (path.drop 1) '/' 5
  if parts.length < 5 then none
  else
    let key := parts.getD 1 "" ++ "/" ++ parts.getD 2 ""
    match goParseUint (parts.getD 3 "") 32 with
    | none => none
    | some id => getEndpointWithHandler k key id

/-- Outcome of `ServeHTTP`'s demux (source lines 175–202).
`backend none` marks the panic of `v[0]` on an empty handler list
(unreachable from reachable states); `byDefault` is the externally
supplied default handler. -/
inductive Dispatch where
  | svcStatus
  | epStatus
  | endpoint (r : Option podEndpoint)
  | backend (h : Option Nat)
  | byDefault
  deriving DecidableEq, Repr

/-- The best-match scan of `ServeHTTP` (source lines 190–199): fold
over the path map keeping the longest registered key that prefixes the
request path; `none` in the second component means no key improved on
the empty initial best match. -/
def demuxScan (pathHandlers : List (String × List Nat)) (path : String) :
    String × Option (List Nat) :=
  pathHandlers.foldl
    (fun acc kv =>
      if goHasPrefix kv.1 path ∧ acc.1.length < kv.1.length then (kv.1, some kv.2) else acc)
    ("", none)

/-- `ServeHTTP` (source lines 175–202). -/
def serveHTTP (k : k8sServiceProxy) (path : String) : Dispatch :=
  if path = serviceDiscoveryPage then .svcStatus
  else if path = endpointDiscoveryPage then .epStatus
  else if goHasPrefix endpointPath path then .endpoint (serveEndpoint k path)
  else
    match (demuxScan k.pathHandlers path).2 with
    | none => .byDefault
    | some v => .backend v.head?

/-! ## Registry consistency (claim C1's invariant) -/

/-- Mutual consistency of the `serviceID → route` and
`path → handlers` maps: every registered route's path is a key of the
path map whose non-empty list contains the route's handler, and every
handler in every path's list is the handler of a currently registered
route whose path is that key. -/
def registryConsistent (k : k8sServiceProxy) : Bool :=
  k.services.all
    (fun sv =>
      match lookupA k.pathHandlers sv.2.Path with
      | none => false
      | some list => !list.isEmpty && list.any (fun h => some h = sv.2.handler)) &&
  k.pathHandlers.all
    (fun pv =>
      pv.2.all (fun h =>
        k.services.any (fun sv => sv.2.Path = pv.1 && sv.2.handler = some h)))

/-- Claim C7's characterization of the 404 conditions for a per-pod
request, written from the claim's words: fewer than five slash-delimited
segments, an index segment that does not parse as a (unbounded)
non-negative integer, an unknown `namespace/service` key, a disabled
(≤ 0) endpoint port, or an index at or beyond the pod-list length. -/
def endpoint404 (k : k8sServiceProxy) (path : String) : Bool :=
  let parts := goSplitN (path.drop 1) '/' 5
  if parts.length < 5 then true
  else
    match parseDecimal (parts.getD 3 "") with
    | none => true
    | some id =>
      match lookupA k.endpoints (parts.getD 1 "" ++ "/" ++ parts.getD 2 "") with
      | none => true
      | some d => decide (d.Port ≤ 0) || decide (d.endpoints.length ≤ id)

/-! ## Concrete objects used in counterexamples and witnesses -/

/-- A routable service: namespace `default`, name `a`, path `xxx`. -/
def svcAxxx : V1Service :=
  { Namespace := "default", Name := "a"
    Annotations := [(SvcProxyAnnotationPath, "xxx")], Ports := [] }

/-- The same serviceID re-announced with path `yyy`. -/
def svcAyyy : V1Service :=
  { Namespace := "default", Name := "a"
    Annotations := [(SvcProxyAnnotationPath, "yyy")], Ports := [] }

/-- A second service claiming the same path `xxx`. -/
def svcBxxx : V1Service :=
  { Namespace := "default", Name := "b"
    Annotations := [(SvcProxyAnnotationPath, "xxx")], Ports := [] }

/-- Service `default/x` announcing path `/a/`. -/
def svcXa : V1Service :=
  { Namespace := "default", Name := "x"
    Annotations := [(SvcProxyAnnotationPath, "/a/")], Ports := [] }

/-- The same serviceID `default/x` re-announced with path `/b/`. -/
def svcXb : V1Service :=
  { Namespace := "default", Name := "x"
    Annotations := [(SvcProxyAnnotationPath, "/b/")], Ports := [] }

/-- Service `default/y` announcing path `/b/`. -/
def svcYb : V1Service :=
  { Namespace := "default", Name := "y"
    Annotations := [(SvcProxyAnnotationPath, "/b/")], Ports := [] }

/-- A service whose routing-path annotation is the empty string (the
code accepts it: only paths under `/k8s-svc-proxy/` are rejected). -/
def svcEmptyPath : V1Service :=
  { Namespace := "default", Name := "e"
    Annotations := [(SvcProxyAnnotationPath, "")], Ports := [] }

/-- A service carrying a malformed `port` annotation while declaring
exactly one port, 8080. -/
def svcMalformedPort : V1Service :=
  { Namespace := "default", Name := "s"
    Annotations := [(SvcProxyAnnotationPort, "abc"), (SvcProxyAnnotationPath, "/p/")]
    Ports := [⟨8080⟩] }

/-- A service requesting a route under the per-pod endpoint namespace. -/
def svcUnderEndpoint : V1Service :=
  { Namespace := "default", Name := "u"
    Annotations := [(SvcProxyAnnotationPath, "/endpoint/foo/")], Ports := [] }

/-- The route of claim C6's example: path `/foo/` remapped to `/bar/`. -/
def routeFooBar : svcEndpoint :=
  { Path := "/foo/", Port := -1, Map := "/bar/", Description := "", handler := some 0 }

/-- A proxy state holding only `routeFooBar`. -/
def proxyFooBar : k8sServiceProxy :=
  { pathHandlers := [("/foo/", [0])]
    services := [("default/foo", routeFooBar)]
    endpoints := [], nextHandler := 1 }

/-- A proxy state with the nested routes of claim C4's example. -/
def proxyFooBarNested : k8sServiceProxy :=
  { pathHandlers := [("/foo/", [3]), ("/foo/bar/", [7])]
    services := [], endpoints := [], nextHandler := 8 }

/-- A proxy state with one per-pod endpoint set, enabled on port 8080. -/
def proxyEp : k8sServiceProxy :=
  { pathHandlers := [], services := []
    endpoints := [("default/foo", { Port := 8080, endpoints := [⟨"foo-xyz", "127.0.0.1"⟩] })]
    nextHandler := 0 }

/-- The `v1.Endpoints` object of claim C8's example: ready address for
pod `foo-xyz`, not-ready address for pod `foo-aaa`. -/
def exampleEndpoints : V1Endpoints :=
  { Namespace := "default", Name := "foo"
    Subsets :=
      [ { Addresses := [⟨"127.0.0.1", some "Pod", "foo-xyz"⟩], NotReadyAddresses := [] }
      , { Addresses := [], NotReadyAddresses := [⟨"8.8.8.8", some "Pod", "foo-aaa"⟩] } ] }


/-! ## Helper lemmas -/

theorem lookupA_insertA_self {α : Type} (m : List (String × α)) (key : String) (v : α) :
    lookupA (insertA m key v) key = some v := by
  induction m with
  | nil => simp [insertA, lookupA]
  | cons kv t ih =>
    obtain ⟨k, w⟩ := kv
    by_cases h : k = key
    · simp [insertA, lookupA, h]
    · simp [insertA, lookupA, h, ih]

theorem goHasPrefix_iff (p s : String) :
    goHasPrefix p s = true ↔ p.data <+: s.data := by
  unfold goHasPrefix
  exact List.isPrefixOf_iff_prefix

/-- Two keys that both prefix the same request path and have equal
lengths are the same string. -/
theorem eq_of_prefixes_length_eq {p q s : String}
    (hp : goHasPrefix p s = true) (hq : goHasPrefix q s = true)
    (hlen : p.length = q.length) : p = q := by
  rw [goHasPrefix_iff] at hp hq
  have h : p.data <+: q.data :=
    List.prefix_of_prefix_length_le hp hq (le_of_eq hlen)
  have hd := h.eq_of_length hlen
  cases p; cases q; simp only at hd; rw [hd]

/-- In a list with no duplicate keys, two entries with the same key
coincide. -/
theorem nodup_keys_entry_eq {α : Type} {l : List (String × α)}
    (hnd : (l.map Prod.fst).Nodup) {a b : String × α}
    (ha : a ∈ l) (hb : b ∈ l) (hk : a.1 = b.1) : a = b := by
  induction l with
  | nil => cases ha
  | cons hd t ih =>
    simp only [List.map_cons, List.nodup_cons] at hnd
    rcases List.mem_cons.mp ha with rfl | ha' <;>
      rcases List.mem_cons.mp hb with rfl | hb'
    · rfl
    · exact absurd (hk ▸ (List.mem_map_of_mem Prod.fst hb')) hnd.1
    · exact absurd (hk ▸ (List.mem_map_of_mem Prod.fst ha')) hnd.1
    · exact ih hnd.2 ha' hb'

/-- Under the per-pod endpoint prefix, `ServeHTTP` always takes the
`serveEndpoint` branch. -/
theorem serveHTTP_under_endpoint (k : k8sServiceProxy) (path : String)
    (h : goHasPrefix endpointPath path = true) :
    serveHTTP k path = .endpoint (serveEndpoint k path) := by
  unfold serveHTTP
  rw [if_neg, if_neg, if_pos h]
  · intro heq; subst heq; exact absurd h (by decide)
  · intro heq; subst heq; exact absurd h (by decide)

/-! ## Claim C5 (corrected) -/

/-- C5, counterexample: for `svcMalformedPort` — whose `port`
annotation is the unparsable "abc" and which declares exactly one port,
8080 — the claim predicts a computed route using port 8080; the code
returns no port at all (`(-1, false)`), so the route's port stays
unset. -/
theorem claim_C5_counterexample :
    getServicePort svcMalformedPort = (-1, false) ∧
    makeSvcEndpoint svcMalformedPort
      = some { Path := "/p/", Port := -1, Map := "", Description := "", handler := none } ∧
    (makeSvcEndpoint svcMalformedPort).map svcEndpoint.Port ≠ some 8080 := by
  decide

/-- C5 (amended): if the `k8s-svc-proxy.local/port` annotation is
present but does not parse as an integer, `getServicePort` returns
`(-1, false)` outright — the override is dropped AND automatic port
selection is skipped, so the computed route's port stays unset
(implying the default port 80), whatever ports the service declares. -/
theorem claim_C5_amended (svc : V1Service) (s : String)
    (hs : lookupA svc.Annotations SvcProxyAnnotationPort = some s)
    (hbad : goAtoi s = none) :
    getServicePort svc = (-1, false) := by
  simp only [getServicePort, hs, hbad]

/-- C5, witness: the amended theorem applied to `svcMalformedPort`. -/
theorem claim_C5_witness : getServicePort svcMalformedPort = (-1, false) :=
  claim_C5_amended svcMalformedPort "abc" (by decide) (by decide)

/-! ## Claim C6 (corrected) -/

/-- C6, counterexample: with route path `/foo/` and map `/bar/`, a
request for `/foo` is NOT rewritten to `/bar/`: the dispatcher never
selects the route (`/foo/` is not a prefix of `/foo`) and sends the
request to the default handler, and `requestMapper` applied directly
would evaluate the out-of-range Go slice `"/foo"[5:]` (modelled
`none`). -/
theorem claim_C6_counterexample :
    requestMapper routeFooBar "/foo" ≠ some "/bar/" ∧
    requestMapper routeFooBar "/foo" = none ∧
    serveHTTP proxyFooBar "/foo" = .byDefault := by
  decide

/-- C6 (amended): whenever the route's path is a string prefix of the
request path — which the dispatcher guarantees before invoking the
handler — the forwarded backend path equals the map prefix concatenated
with the request path stripped of the route's path; in particular
`/foo/x` is forwarded as `/bar/x`.  A request for `/foo` (no trailing
slash) never reaches a route with path `/foo/`; the `/foo` → `/bar/`
normalization exists only for a route whose annotated path is `/foo`
itself. -/
theorem claim_C6_amended (endpoint : svcEndpoint) (reqPath : String)
    (h : goHasPrefix endpoint.Path reqPath = true) :
    requestMapper endpoint reqPath
      = some (endpoint.Map ++ reqPath.drop endpoint.Path.length) := by
  unfold requestMapper
  rw [if_pos]
  exact ((goHasPrefix_iff _ _).mp h).length_le

/-- C6, witness: the amended theorem at route `/foo/` → `/bar/` and
request `/foo/x` gives forwarded path `/bar/x`. -/
theorem claim_C6_witness : requestMapper routeFooBar "/foo/x" = some "/bar/x" := by
  have h := claim_C6_amended routeFooBar "/foo/x" (by decide)
  simpa using h

/-! ## Claim C9 (confirmed) -/

/-- C9: an Endpoints Deleted event replaces the serviceID's pod list
with the empty list, keeps the stored endpoint port, and does not
remove the EndpointSet entry from the endpoints map. -/
theorem claim_C9 (k : k8sServiceProxy) (ep : V1Endpoints) (d : endpointData)
    (h : lookupA k.endpoints (ep.Namespace ++ "/" ++ ep.Name) = some d) :
    lookupA (endpointDelete k ep).endpoints (ep.Namespace ++ "/" ++ ep.Name)
      = some { Port := d.Port, endpoints := [] } := by
  unfold endpointDelete setEndpointList
  simp only [h]
  exact lookupA_insertA_self _ _ _

/-- C9, witness: deleting the Endpoints object of `default/foo` in
`proxyEp` leaves the entry present with port 8080 and no pods. -/
theorem claim_C9_witness :
    lookupA (endpointDelete proxyEp ⟨"default", "foo", []⟩).endpoints "default/foo"
      = some { Port := 8080, endpoints := [] } :=
  claim_C9 proxyEp ⟨"default", "foo", []⟩
    { Port := 8080, endpoints := [⟨"foo-xyz", "127.0.0.1"⟩] } (by decide)

/-! ## Claim C1 (code bug) -/

/-- C1, divergence witness: after the two Added events
`default/a ↦ path xxx` then `default/a ↦ path yyy` (a re-delivered Add
for an existing serviceID with a changed route), the registry is NOT
mutually consistent: `serviceAdd` executed
`delete(k.pathHandlers, endpoint.Path)` on the NEW path `yyy` instead
of removing the previous handler under `xxx`, so handler 0 stays
registered under `xxx` although no current route owns it.  The
intended no-op guard `reflect.DeepEqual(endpoint, prev)` can never
fire because the freshly computed endpoint's `handler` field is still
nil while the stored one is set. -/
theorem claim_C1_code_divergence :
    registryConsistent (applyEvents [.svcAdded svcAxxx, .svcAdded svcAyyy] initialProxy)
      = false ∧
    (applyEvents [.svcAdded svcAxxx, .svcAdded svcAyyy] initialProxy).pathHandlers
      = [("xxx", [0]), ("yyy", [1])] ∧
    (applyEvents [.svcAdded svcAxxx, .svcAdded svcAyyy] initialProxy).services
      = [("default/a",
          { Path := "yyy", Port := -1, Map := "", Description := "", handler := some 1 })] := by
  decide

/-! ## Claim C2 (code bug) -/

/-- C2, divergence witness: after `default/a ↦ xxx` and
`default/b ↦ xxx` the path `xxx` holds the two handlers [0, 1];
re-delivering the identical Added event for `default/a` is NOT a no-op:
the dead `reflect.DeepEqual` guard (nil vs. set `handler` field) falls
through, `delete(k.pathHandlers, endpoint.Path)` wipes the whole list
— `default/b`'s handler included — and a single fresh handler 2 is
installed, shrinking the list from two entries to one. -/
theorem claim_C2_code_divergence :
    (applyEvents [.svcAdded svcAxxx, .svcAdded svcBxxx] initialProxy).pathHandlers
      = [("xxx", [0, 1])] ∧
    (applyEvents [.svcAdded svcAxxx, .svcAdded svcBxxx, .svcAdded svcAxxx]
        initialProxy).pathHandlers
      = [("xxx", [2])] ∧
    (applyEvents [.svcAdded svcAxxx, .svcAdded svcBxxx, .svcAdded svcAxxx]
        initialProxy).services
      ≠ (applyEvents [.svcAdded svcAxxx, .svcAdded svcBxxx] initialProxy).services := by
  decide

/-! ## Claim C3 (code bug) -/

/-- C3, divergence witness: `default/x` registers `/a/` (handler 0),
`default/y` registers `/b/` (handler 1); a re-delivered Added event for
`default/x` with the changed path `/b/` should, per the claim, remove
handler 0 from `/a/` and leave `default/y`'s handler 1 under `/b/`.
The code instead deletes the whole NEW-path entry `/b/` (evicting
handler 1) and leaves the stale handler 0 registered under `/a/`. -/
theorem claim_C3_code_divergence :
    (applyEvents [.svcAdded svcXa, .svcAdded svcYb, .svcAdded svcXb] initialProxy).pathHandlers
      = [("/a/", [0]), ("/b/", [2])] ∧
    (applyEvents [.svcAdded svcXa, .svcAdded svcYb, .svcAdded svcXb] initialProxy).services
      = [("default/x",
          { Path := "/b/", Port := -1, Map := "", Description := "", handler := some 2 }),
         ("default/y",
          { Path := "/b/", Port := -1, Map := "", Description := "", handler := some 1 })] := by
  decide

/-! ## Claim C8 (confirmed) -/

/-- C8: for every Endpoints event processed by `endpointUpdate`, the
pod list stored under the object's serviceID is exactly
`makeEndpointList`, a lexicographically-by-pod-name sorted permutation
of all ready and not-ready addresses of all subsets; concretely, the
example object with ready pod `foo-xyz` and not-ready pod `foo-aaa`
yields the order [`foo-aaa`, `foo-xyz`], so index 0 addresses
`foo-aaa`. -/
theorem claim_C8 (k : k8sServiceProxy) (ep : V1Endpoints) :
    (∃ d, lookupA (endpointUpdate k ep).endpoints (ep.Namespace ++ "/" ++ ep.Name) = some d ∧
      d.endpoints = makeEndpointList ep ∧
      d.endpoints.Pairwise podLe ∧
      d.endpoints.Perm (gatherEndpoints ep)) ∧
    (makeEndpointList exampleEndpoints).map podEndpoint.PodName = ["foo-aaa", "foo-xyz"] := by
  constructor
  · have hsorted : (makeEndpointList ep).Pairwise podLe :=
      List.sorted_insertionSort podLe (gatherEndpoints ep)
    have hperm : (makeEndpointList ep).Perm (gatherEndpoints ep) :=
      List.perm_insertionSort podLe (gatherEndpoints ep)
    cases h : lookupA k.endpoints (ep.Namespace ++ "/" ++ ep.Name) with
    | none =>
      refine ⟨{ Port := 0, endpoints := makeEndpointList ep }, ?_, rfl, hsorted, hperm⟩
      simp only [endpointUpdate, setEndpointList, h]
      exact lookupA_insertA_self _ _ _
    | some d =>
      refine ⟨{ Port := d.Port, endpoints := makeEndpointList ep }, ?_, rfl, hsorted, hperm⟩
      simp only [endpointUpdate, setEndpointList, h]
      exact lookupA_insertA_self _ _ _
  · decide

/-! ## Claim C10 (confirmed) -/

/-- C10: every request whose path begins with `/endpoint/` is delegated
to per-pod endpoint resolution, never to the registered path table or
the default handler; a service whose annotated path lies under
`/endpoint/` is still accepted by `makeSvcEndpoint` (only paths under
`/k8s-svc-proxy/` are rejected); and any request that such a route's
path prefixes itself starts with `/endpoint/`, hence is diverted to
endpoint resolution — the route is unreachable through dispatch. -/
theorem claim_C10 :
    (∀ (k : k8sServiceProxy) (path : String), goHasPrefix endpointPath path = true →
        serveHTTP k path = .endpoint (serveEndpoint k path)) ∧
    (∀ (svc : V1Service) (p : String),
        lookupA svc.Annotations SvcProxyAnnotationPath = some p →
        goHasPrefix endpointPath p = true →
        makeSvcEndpoint svc ≠ none) ∧
    (∀ (k : k8sServiceProxy) (path routeP : String) (handlers : List Nat),
        (routeP, handlers) ∈ k.pathHandlers →
        goHasPrefix endpointPath routeP = true →
        goHasPrefix routeP path = true →
        serveHTTP k path = .endpoint (serveEndpoint k path)) := by
  refine ⟨fun k path h => serveHTTP_under_endpoint k path h, ?_, ?_⟩
  · intro svc p hlkp hpre
    have hnot : ¬ (goHasPrefix SvcProxyHTTPPath p = true) := by
      intro hc
      have h1 := (goHasPrefix_iff _ _).mp hpre
      have h2 := (goHasPrefix_iff _ _).mp hc
      have h3 : endpointPath.data <+: SvcProxyHTTPPath.data :=
        List.prefix_of_prefix_length_le h1 h2 (by decide)
      exact absurd ((goHasPrefix_iff _ _).mpr h3) (by decide)
    simp only [makeSvcEndpoint, hlkp]
    rw [if_neg hnot]
    simp
  · intro k path routeP handlers hmem hpre1 hpre2
    apply serveHTTP_under_endpoint
    rw [goHasPrefix_iff] at hpre1 hpre2 ⊢
    exact hpre1.trans hpre2

/-- C10, witness: a concrete `/endpoint/...` request against
`proxyFooBar` is endpoint-resolved (here to a 404: its endpoints map is
empty), and the concrete service annotating path `/endpoint/foo/` is
accepted into the registry. -/
theorem claim_C10_witness :
    serveHTTP proxyFooBar "/endpoint/default/foo/0/x" = .endpoint none ∧
    makeSvcEndpoint svcUnderEndpoint ≠ none := by
  constructor
  · have h := claim_C10.1 proxyFooBar "/endpoint/default/foo/0/x" (by decide)
    rw [h]; decide
  · exact claim_C10.2.1 svcUnderEndpoint "/endpoint/foo/" (by decide) (by decide)

/-! ## Claim C4 (corrected) -/

/-- The best-match fold keeps its accumulator when no entry improves on
it. -/
theorem demuxScan_stay (path : String) :
    ∀ (l : List (String × List Nat)) (acc : String × Option (List Nat)),
      (∀ kv ∈ l, goHasPrefix kv.1 path = true → kv.1.length ≤ acc.1.length) →
      l.foldl
        (fun acc kv =>
          if goHasPrefix kv.1 path ∧ acc.1.length < kv.1.length then (kv.1, some kv.2) else acc)
        acc = acc := by
  intro l
  induction l with
  | nil => intro acc _; rfl
  | cons hd t ih =>
    intro acc h
    have hstep :
        (if goHasPrefix hd.1 path ∧ acc.1.length < hd.1.length then (hd.1, some hd.2) else acc)
          = acc := by
      rw [if_neg]
      rintro ⟨hp, hl⟩
      exact absurd hl (not_lt.mpr (h hd (List.mem_cons_self _ _) hp))
    simp only [List.foldl_cons, hstep]
    exact ih acc (fun kv hkv => h kv (List.mem_cons_of_mem _ hkv))

/-- The best-match fold returns the dominant matching entry: an entry
whose key prefixes the path, beats the accumulator, and is strictly
longer than every other matching entry. -/
theorem demuxScan_pick (path : String) :
    ∀ (l : List (String × List Nat)) (acc : String × Option (List Nat))
      (key : String) (v : List Nat),
      (key, v) ∈ l → goHasPrefix key path = true → acc.1.length < key.length →
      (∀ kv ∈ l, goHasPrefix kv.1 path = true → kv ≠ (key, v) → kv.1.length < key.length) →
      l.foldl
        (fun acc kv =>
          if goHasPrefix kv.1 path ∧ acc.1.length < kv.1.length then (kv.1, some kv.2) else acc)
        acc = (key, some v) := by
  intro l
  induction l with
  | nil => intro acc key v hmem; cases hmem
  | cons hd t ih =>
    intro acc key v hmem hpre hacc hdom
    by_cases heq : hd = (key, v)
    · have hstep :
          (if goHasPrefix hd.1 path ∧ acc.1.length < hd.1.length then (hd.1, some hd.2) else acc)
            = (key, some v) := by
        rw [heq]
        exact if_pos ⟨hpre, hacc⟩
      simp only [List.foldl_cons, hstep]
      apply demuxScan_stay
      intro kv hkv hkvpre
      by_cases hkveq : kv = (key, v)
      · rw [hkveq]
      · exact le_of_lt (hdom kv (List.mem_cons_of_mem _ hkv) hkvpre hkveq)
    · have hmem' : (key, v) ∈ t := by
        rcases List.mem_cons.mp hmem with h | h
        · exact absurd h.symm heq
        · exact h
      simp only [List.foldl_cons]
      have hacc' :
          (if goHasPrefix hd.1 path ∧ acc.1.length < hd.1.length
            then (hd.1, some hd.2) else acc).1.length < key.length := by
        by_cases hc : goHasPrefix hd.1 path ∧ acc.1.length < hd.1.length
        · rw [if_pos hc]
          exact hdom hd (List.mem_cons_self _ _) hc.1 heq
        · rw [if_neg hc]
          exact hacc
      exact ih _ key v hmem' hpre hacc'
        (fun kv hkv h1 h2 => hdom kv (List.mem_cons_of_mem _ hkv) h1 h2)

/-- C4, counterexample: the empty-string route key (installable via an
empty `path` annotation) IS a string prefix of the request path `/x`
and is the longest (indeed only) matching registered key, yet the
dispatcher serves the request with the default handler, not with that
key's first handler: the scan demands strictly greater length than the
initial empty best-match, so a zero-length key can never win. -/
theorem claim_C4_counterexample :
    (applyEvents [.svcAdded svcEmptyPath] initialProxy).pathHandlers = [("", [0])] ∧
    goHasPrefix "" "/x" = true ∧
    serveHTTP (applyEvents [.svcAdded svcEmptyPath] initialProxy) "/x" = .byDefault ∧
    serveHTTP (applyEvents [.svcAdded svcEmptyPath] initialProxy) "/x" ≠ .backend (some 0) := by
  decide

/-- C4 (amended): for a request path that is not a diagnostic page and
not under the per-pod endpoint namespace, if some registered key of
positive length is a prefix of the request path and of maximal length
among matching keys (keys being unique), the dispatcher serves the
request with that key's first handler; if every matching registered key
has length zero — in particular if none matches — the default handler
serves it.  (The original claim fails only for the zero-length key.) -/
theorem claim_C4_amended (k : k8sServiceProxy) (path : String)
    (hnd : (k.pathHandlers.map Prod.fst).Nodup)
    (h1 : path ≠ serviceDiscoveryPage) (h2 : path ≠ endpointDiscoveryPage)
    (h3 : goHasPrefix endpointPath path = false) :
    (∀ key v, (key, v) ∈ k.pathHandlers → goHasPrefix key path = true → 0 < key.length →
      (∀ key' v', (key', v') ∈ k.pathHandlers → goHasPrefix key' path = true →
        key'.length ≤ key.length) →
      serveHTTP k path = .backend v.head?) ∧
    ((∀ key v, (key, v) ∈ k.pathHandlers → goHasPrefix key path = true → key.length = 0) →
      serveHTTP k path = .byDefault) := by
  have h3' : ¬ (goHasPrefix endpointPath path = true) := by
    rw [h3]; exact Bool.false_ne_true
  constructor
  · intro key v hmem hpre hpos hmax
    have hdom : ∀ kv ∈ k.pathHandlers, goHasPrefix kv.1 path = true → kv ≠ (key, v) →
        kv.1.length < key.length := by
      intro kv hkv hkvpre hne
      rcases lt_or_eq_of_le (hmax kv.1 kv.2 hkv hkvpre) with h | h
      · exact h
      · exfalso
        have hkeq : kv.1 = key := eq_of_prefixes_length_eq hkvpre hpre h
        exact hne (nodup_keys_entry_eq hnd hkv hmem hkeq)
    have hscan : demuxScan k.pathHandlers path = (key, some v) :=
      demuxScan_pick path k.pathHandlers ("", none) key v hmem hpre hpos hdom
    unfold serveHTTP
    rw [if_neg h1, if_neg h2, if_neg h3', hscan]
  · intro hzero
    have hscan : demuxScan k.pathHandlers path = ("", none) := by
      apply demuxScan_stay
      intro kv hkv hkvpre
      exact le_of_eq (hzero kv.1 kv.2 hkv hkvpre)
    unfold serveHTTP
    rw [if_neg h1, if_neg h2, if_neg h3', hscan]

/-- C4, witness: with routes `/foo/` and `/foo/bar/` registered, a
request for `/foo/bar/x` is served by the `/foo/bar/` route's first
handler. -/
theorem claim_C4_witness :
    serveHTTP proxyFooBarNested "/foo/bar/x" = .backend (some 7) := by
  have h :=
    (claim_C4_amended proxyFooBarNested "/foo/bar/x" (by decide) (by decide) (by decide)
        (by decide)).1
      "/foo/bar/" [7] (by decide) (by decide) (by decide) ?hmax
  case hmax =>
    intro key' v' hmem hpre
    simp only [proxyFooBarNested, List.mem_cons, List.not_mem_nil, or_false] at hmem
    rcases hmem with h | h
    · injection h with ha hb
      rw [ha]; decide
    · injection h with ha hb
      rw [ha]
  exact h

/-! ## Claim C7 (confirmed) -/

/-- Core of claim C7: under the assumption that stored pod lists are
shorter than 2^32 (they are Go slices; `ParseUint(..., 32)` rejects
larger indices which are then out of range anyway), `serveEndpoint`
returns nil — a 404 — exactly under the claim's conditions. -/
theorem serveEndpoint_none_iff (k : k8sServiceProxy) (path : String)
    (hlen : ∀ key d, lookupA k.endpoints key = some d → d.endpoints.length < 2 ^ 32) :
    serveEndpoint k path = none ↔ endpoint404 k path = true := by
  simp only [serveEndpoint, endpoint404]
  by_cases h5 : (goSplitN (path.drop 1) '/' 5).length < 5
  · rw [if_pos h5, if_pos h5]
    simp
  · rw [if_neg h5, if_neg h5]
    cases hdec : parseDecimal ((goSplitN (path.drop 1) '/' 5).getD 3 "") with
    | none =>
      have hgo : goParseUint ((goSplitN (path.drop 1) '/' 5).getD 3 "") 32 = none := by
        simp only [goParseUint, hdec]
      rw [hgo]
      simp
    | some id =>
      have hgo : goParseUint ((goSplitN (path.drop 1) '/' 5).getD 3 "") 32
          = if id < 2 ^ 32 then some id else none := by
        simp only [goParseUint, hdec]
      rw [hgo]
      by_cases hid : id < 2 ^ 32
      · rw [if_pos hid]
        simp only [getEndpointWithHandler]
        cases hlk : lookupA k.endpoints
            ((goSplitN (path.drop 1) '/' 5).getD 1 "" ++ "/"
              ++ (goSplitN (path.drop 1) '/' 5).getD 2 "") with
        | none => simp
        | some d =>
          by_cases hp : d.Port ≤ 0
          · simp [hp]
          · by_cases hle : d.endpoints.length ≤ id
            · simp [hp, hle]
            · simp [hp, hle, List.get?_eq_get (not_le.mp hle)]
      · rw [if_neg hid]
        cases hlk : lookupA k.endpoints
            ((goSplitN (path.drop 1) '/' 5).getD 1 "" ++ "/"
              ++ (goSplitN (path.drop 1) '/' 5).getD 2 "") with
        | none => simp
        | some d =>
          have hlt := hlen _ d hlk
          have hle : d.endpoints.length ≤ id := le_trans (le_of_lt hlt) (not_lt.mp hid)
          simp [hle]

/-- C7: a per-pod request under `/endpoint/` is answered 404 exactly
when the URL has fewer than five slash-delimited segments, the index
segment does not parse as a non-negative integer, the
`namespace/service` key is unknown, the stored endpoint port is
disabled (≤ 0), or the index is at or beyond the pod-list length;
otherwise a pod is selected and the request forwarded via its handler.
(The pod lists, being Go slices, are assumed shorter than 2^32.) -/
theorem claim_C7 (k : k8sServiceProxy) (path : String)
    (hpre : goHasPrefix endpointPath path = true)
    (hlen : ∀ key d, lookupA k.endpoints key = some d → d.endpoints.length < 2 ^ 32) :
    (serveHTTP k path = .endpoint none ↔ endpoint404 k path = true) ∧
    (endpoint404 k path = false → ∃ pod, serveHTTP k path = .endpoint (some pod)) := by
  constructor
  · rw [serveHTTP_under_endpoint k path hpre]
    simp only [Dispatch.endpoint.injEq]
    exact serveEndpoint_none_iff k path hlen
  · intro hf
    have hne : ¬ (serveEndpoint k path = none) := by
      rw [serveEndpoint_none_iff k path hlen, hf]
      exact Bool.false_ne_true
    cases hse : serveEndpoint k path with
    | none => exact absurd hse hne
    | some pod =>
      exact ⟨pod, by rw [serveHTTP_under_endpoint k path hpre, hse]⟩

/-- C7, witness: against `proxyEp`, the request
`/endpoint/default/foo/0/debug/varz` is not a 404 (a pod is selected),
while `/endpoint/default/foo/1` — four segments only — is one. -/
theorem claim_C7_witness :
    (serveHTTP proxyEp "/endpoint/default/foo/0/debug/varz" = .endpoint none
      ↔ endpoint404 proxyEp "/endpoint/default/foo/0/debug/varz" = true) ∧
    (serveHTTP proxyEp "/endpoint/default/foo/1" = .endpoint none
      ↔ endpoint404 proxyEp "/endpoint/default/foo/1" = true) := by
  have hlen : ∀ key d, lookupA proxyEp.endpoints key = some d →
      d.endpoints.length < 2 ^ 32 := by
    intro key d h
    simp only [proxyEp, lookupA] at h
    split at h
    · cases h
      decide
    · cases h
  exact ⟨(claim_C7 proxyEp "/endpoint/default/foo/0/debug/varz" (by decide) hlen).1,
         (claim_C7 proxyEp "/endpoint/default/foo/1" (by decide) hlen).1⟩
